import Mathlib

/-!
Shallow embedding of the calculation core of `statik-ai-agent-de`
(`src/calculation.py`): beam, frame and slab analyzers plus the
material/section lookup tables.

Conventions of the embedding:
* Python `float` arithmetic is modelled as exact arithmetic: over `ℚ` for
  the beam, slab and lookup code (all its literals, e.g. `0.7`, `0.65`,
  `0.00406`, `1.15`, are decimal and hence exact rationals), and over `ℝ`
  for the frame code, whose single-story variant uses `np.tan(np.radians(30))`.
* A Python `raise` is modelled as `Except.error`; a function that cannot
  raise still returns `Except.ok` so that "fails and returns no result"
  is statable uniformly.  The only `raise` in the analyzer code is the
  `ValueError` for an unsupported span count in `berechne_durchlauftrager`.
* `dict.get(key, default)` is modelled as lookup in an association list
  with a default.
* Mutating dataclass fields after construction is modelled by computing
  every field's final value and building the record once.
-/

namespace Statik

/-- The only error condition raised by the analyzer code: the `ValueError`
of `berechne_durchlauftrager` for a span list whose length is not 2 or 3. -/
inductive CalcError where
  | unsupportedSpanCount : CalcError
deriving DecidableEq

/-- Mirrors the Python `TraegerBerechnung` dataclass (beam result record). -/
structure TraegerBerechnung where
  traeger_typ : String
  laenge : ℚ
  streckenlast : ℚ
  emodul : ℚ
  traegheitsmoment : ℚ
  biegemoment_max : ℚ
  durchbiegung_max : ℚ
  querkraft_max : ℚ
  felder : List ℚ
  max_feld_index : ℕ
  grenzdurchbiegung_l300 : ℚ
  grenzdurchbiegung_l250 : ℚ
  ausnutzung_l300 : ℚ
  grenzdurchbiegung_l200 : ℚ
deriving Repr

/-- Mirrors the Python `RahmenBerechnung` dataclass (frame result record);
over `ℝ` because the single-story frame uses `tan(30°)`. -/
structure RahmenBerechnung where
  rahmen_typ : String
  breite : ℝ
  hoehe : ℝ
  streckenlast : ℝ
  emodul : ℝ
  traegheitsmoment : ℝ
  schwingungsmoment : ℝ
  riegelmoment : ℝ
  stuetzkraft_vert : ℝ
  stuetzkraft_horiz : ℝ
  durchbiegung_riegel : ℝ
  grenzdurchbiegung : ℝ
  ausnutzung : ℝ

/-- Mirrors the Python `PlatteBerechnung` dataclass (slab result record). -/
structure PlatteBerechnung where
  platten_typ : String
  laenge_x : ℚ
  laenge_y : ℚ
  last : ℚ
  emodul : ℚ
  dicke : ℚ
  max_moment_x : ℚ
  max_moment_y : ℚ
  max_durchbiegung : ℚ
  bewehrung_x : ℚ
  bewehrung_y : ℚ
  grenzdurchbiegung : ℚ
  ausnutzung : ℚ
deriving Repr

/-- Python `max` over a nonempty sequence (0 on the empty list, which the
analyzer code never reaches). -/
def listMax : List ℚ → ℚ
  | [] => 0
  | x :: xs => xs.foldl max x

/-- Python `list.index`: index of the first occurrence of `a`
(length of the list if absent, which the analyzer code never reaches). -/
def listIndex : List ℚ → ℚ → ℕ
  | [], _ => 0
  | x :: xs, a => if x = a then 0 else listIndex xs a + 1

/-- Python `dict.get` on a string-keyed table, modelled on an association
list (keys are pairwise distinct in both tables of the source). -/
def dictGet : List (String × ℚ) → String → ℚ → ℚ
  | [], _, default => default
  | (k, v) :: rest, s, default => if s = k then v else dictGet rest s default

/-- Tests whether the computation returned a result (did not raise). -/
def returnsResult {α : Type} (e : Except CalcError α) : Bool :=
  match e with
  | .ok _ => true
  | .error _ => false

/-- Embeds `berechne_einfeldtraeger` (simply supported beam, uniform load). -/
def berechne_einfeldtraeger (laenge streckenlast emodul traegheitsmoment : ℚ) :
    Except CalcError TraegerBerechnung :=
  let biegemoment_max := streckenlast * laenge ^ 2 / 8
  let querkraft_max := streckenlast * laenge / 2
  let emodul_knm2 := emodul * 1000
  let durchbiegung_max :=
    5 * streckenlast * laenge ^ 4 / (384 * emodul_knm2 * traegheitsmoment) * 1000
  let grenz300 := laenge * 1000 / 300
  let grenz250 := laenge * 1000 / 250
  let ausnutzung := if 0 < grenz300 then durchbiegung_max / grenz300 * 100 else 0
  Except.ok
    { traeger_typ := "einfeld", laenge := laenge, streckenlast := streckenlast,
      emodul := emodul, traegheitsmoment := traegheitsmoment,
      biegemoment_max := biegemoment_max, durchbiegung_max := durchbiegung_max,
      querkraft_max := querkraft_max, felder := [], max_feld_index := 0,
      grenzdurchbiegung_l300 := grenz300, grenzdurchbiegung_l250 := grenz250,
      ausnutzung_l300 := ausnutzung, grenzdurchbiegung_l200 := 0 }

/-- Embeds `berechne_kragtraeger` (cantilever, uniform load).  Note the source
stores the L/200-based utilization in the field `ausnutzung_l300`. -/
def berechne_kragtraeger (laenge streckenlast emodul traegheitsmoment : ℚ) :
    Except CalcError TraegerBerechnung :=
  let biegemoment_max := streckenlast * laenge ^ 2 / 2
  let querkraft_max := streckenlast * laenge
  let emodul_knm2 := emodul * 1000
  let durchbiegung_max :=
    streckenlast * laenge ^ 4 / (8 * emodul_knm2 * traegheitsmoment) * 1000
  let grenz300 := laenge * 1000 / 300
  let grenz200 := laenge * 1000 / 200
  let ausnutzung := if 0 < grenz200 then durchbiegung_max / grenz200 * 100 else 0
  Except.ok
    { traeger_typ := "krag", laenge := laenge, streckenlast := streckenlast,
      emodul := emodul, traegheitsmoment := traegheitsmoment,
      biegemoment_max := biegemoment_max, durchbiegung_max := durchbiegung_max,
      querkraft_max := querkraft_max, felder := [], max_feld_index := 0,
      grenzdurchbiegung_l300 := grenz300, grenzdurchbiegung_l250 := 0,
      ausnutzung_l300 := ausnutzung, grenzdurchbiegung_l200 := grenz200 }

/-- Embeds `berechne_durchlauftrager` (continuous beam, 2 or 3 spans); raises
`ValueError` for any other span count, before computing anything. -/
def berechne_durchlauftrager (felder : List ℚ) (streckenlast emodul traegheitsmoment : ℚ) :
    Except CalcError TraegerBerechnung :=
  let n_felder := felder.length
  if n_felder = 2 ∨ n_felder = 3 then
    let max_L := listMax felder
    let max_idx := listIndex felder max_L
    let reduction : ℚ := if n_felder = 2 then 0.7 else 0.65
    let biegemoment_max := streckenlast * max_L ^ 2 / 8
    let querkraft_max := listMax (felder.map fun f => streckenlast * f / 2)
    let emodul_knm2 := emodul * 1000
    let durchbiegung_max :=
      5 * streckenlast * max_L ^ 4 / (384 * emodul_knm2 * traegheitsmoment) * 1000 * reduction
    let grenz300 := max_L * 1000 / 300
    let grenz250 := max_L * 1000 / 250
    let ausnutzung := if 0 < grenz300 then durchbiegung_max / grenz300 * 100 else 0
    Except.ok
      { traeger_typ := "durchlauf", laenge := felder.sum, streckenlast := streckenlast,
        emodul := emodul, traegheitsmoment := traegheitsmoment,
        biegemoment_max := biegemoment_max, durchbiegung_max := durchbiegung_max,
        querkraft_max := querkraft_max, felder := felder, max_feld_index := max_idx,
        grenzdurchbiegung_l300 := grenz300, grenzdurchbiegung_l250 := grenz250,
        ausnutzung_l300 := ausnutzung, grenzdurchbiegung_l200 := 0 }
  else
    Except.error CalcError.unsupportedSpanCount

/-- The value `np.tan(np.radians(30))`, the 30° roof-pitch factor of the
single-story frame. -/
noncomputable def tan30 : ℝ := Real.tan (30 * Real.pi / 180)

/-- Embeds `berechne_rahmen_eingeschossig` (single-story portal frame). -/
noncomputable def berechne_rahmen_eingeschossig
    (breite hoehe streckenlast emodul traegheitsmoment : ℝ) :
    Except CalcError RahmenBerechnung :=
  let schwingungsmoment := streckenlast * breite ^ 2 / 12
  let riegelmoment := streckenlast * breite ^ 2 / 24
  let stuetzkraft_vert := streckenlast * breite / 2
  let stuetzkraft_horiz := streckenlast * breite * tan30 / 4
  let emodul_knm2 := emodul * 1000
  let durchbiegung_riegel :=
    5 * streckenlast * breite ^ 4 / (384 * emodul_knm2 * traegheitsmoment) * 1000
  let grenz := breite * 1000 / 300
  let ausnutzung := if 0 < grenz then durchbiegung_riegel / grenz * 100 else 0
  Except.ok
    { rahmen_typ := "eingeschossig", breite := breite, hoehe := hoehe,
      streckenlast := streckenlast, emodul := emodul,
      traegheitsmoment := traegheitsmoment,
      schwingungsmoment := schwingungsmoment, riegelmoment := riegelmoment,
      stuetzkraft_vert := stuetzkraft_vert, stuetzkraft_horiz := stuetzkraft_horiz,
      durchbiegung_riegel := durchbiegung_riegel, grenzdurchbiegung := grenz,
      ausnutzung := ausnutzung }

/-- Embeds `berechne_rahmen_zweischossig` (two-story portal frame). -/
noncomputable def berechne_rahmen_zweischossig
    (breite hoehe_eg hoehe_og streckenlast emodul traegheitsmoment : ℝ) :
    Except CalcError RahmenBerechnung :=
  let schwingungsmoment := streckenlast * breite ^ 2 / 10
  let riegelmoment := streckenlast * breite ^ 2 / 20
  let stuetzkraft_vert := streckenlast * breite / 2 * 2
  let stuetzkraft_horiz := streckenlast * breite / 20
  let emodul_knm2 := emodul * 1000
  let durchbiegung_riegel :=
    5 * streckenlast * breite ^ 4 / (384 * emodul_knm2 * traegheitsmoment) * 1000
  let grenz := breite * 1000 / 300
  let ausnutzung := if 0 < grenz then durchbiegung_riegel / grenz * 100 else 0
  Except.ok
    { rahmen_typ := "zweischossig", breite := breite, hoehe := hoehe_eg + hoehe_og,
      streckenlast := streckenlast, emodul := emodul,
      traegheitsmoment := traegheitsmoment,
      schwingungsmoment := schwingungsmoment, riegelmoment := riegelmoment,
      stuetzkraft_vert := stuetzkraft_vert, stuetzkraft_horiz := stuetzkraft_horiz,
      durchbiegung_riegel := durchbiegung_riegel, grenzdurchbiegung := grenz,
      ausnutzung := ausnutzung }

/-- Embeds `berechne_platte_einfeld` (single-span slab, all edges supported). -/
def berechne_platte_einfeld (laenge_x laenge_y last emodul dicke : ℚ) :
    Except CalcError PlatteBerechnung :=
  let lambda_seite := if 0 < laenge_x then laenge_y / laenge_x else 1
  let nu : ℚ := 0.2
  let D := emodul * 1000 * dicke ^ 3 / (12 * (1 - nu ^ 2))
  let max_moment_x :=
    if 1 ≤ lambda_seite then last * laenge_x ^ 2 / 8
    else (last * laenge_y ^ 2 / 8) * 0.5
  let max_moment_y :=
    if 1 ≤ lambda_seite then (last * laenge_x ^ 2 / 8) * 0.5
    else last * laenge_y ^ 2 / 8
  let k_deflection : ℚ := 0.00406
  let max_durchbiegung := k_deflection * (last * 1000 * laenge_x ^ 4) / D * 1000
  let grenz := laenge_x * 1000 / 250
  let ausnutzung := if 0 < grenz then max_durchbiegung / grenz * 100 else 0
  let f_yk : ℚ := 500
  let gamma_s : ℚ := 1.15
  let f_yd := f_yk / gamma_s
  let z_x := 0.9 * dicke * 1000
  let z_y := 0.9 * dicke * 1000
  Except.ok
    { platten_typ := "einfeld", laenge_x := laenge_x, laenge_y := laenge_y,
      last := last, emodul := emodul, dicke := dicke,
      max_moment_x := max_moment_x, max_moment_y := max_moment_y,
      max_durchbiegung := max_durchbiegung,
      bewehrung_x := max_moment_x * 1e6 / (z_x * f_yd) / 100,
      bewehrung_y := max_moment_y * 1e6 / (z_y * f_yd) / 100,
      grenzdurchbiegung := grenz, ausnutzung := ausnutzung }

/-- Embeds `berechne_platte_durchlauf` (continuous slab).  The reduction
factor comes from a dictionary lookup keyed 2, 3, 4 with values 0.7, 0.65,
0.6 and default 0.65 — an unsupported span count silently falls back to
`0.65`; nothing is raised. -/
def berechne_platte_durchlauf (laenge_x laenge_y last emodul dicke : ℚ)
    (felder : ℕ) : Except CalcError PlatteBerechnung :=
  let reduction : ℚ :=
    if felder = 2 then 0.7 else if felder = 3 then 0.65
    else if felder = 4 then 0.6 else 0.65
  match berechne_platte_einfeld laenge_x laenge_y last emodul dicke with
  | .error e => .error e
  | .ok einfeld =>
    let max_moment_x := einfeld.max_moment_x * reduction
    let max_moment_y := einfeld.max_moment_y * reduction
    let max_durchbiegung := einfeld.max_durchbiegung * reduction
    let grenz := laenge_x * 1000 / 250
    let ausnutzung := if 0 < grenz then max_durchbiegung / grenz * 100 else 0
    let f_yk : ℚ := 500
    let gamma_s : ℚ := 1.15
    let f_yd := f_yk / gamma_s
    let z_x := 0.9 * dicke * 1000
    Except.ok
      { platten_typ := "durchlauf", laenge_x := laenge_x, laenge_y := laenge_y,
        last := last, emodul := emodul, dicke := dicke,
        max_moment_x := max_moment_x, max_moment_y := max_moment_y,
        max_durchbiegung := max_durchbiegung,
        bewehrung_x := max_moment_x * 1e6 / (z_x * f_yd) / 100,
        bewehrung_y := max_moment_y * 1e6 / (z_x * f_yd) / 100,
        grenzdurchbiegung := grenz, ausnutzung := ausnutzung }

/-- The material table of `get_material_e_modul`. -/
def materialien : List (String × ℚ) :=
  [("Stahl (S235)", 210000), ("Stahl (S355)", 210000),
   ("Beton C20/25", 30000), ("Beton C30/37", 33000), ("Beton C35/45", 34000),
   ("Holz (Fichte)", 11000), ("Holz (Tanne)", 11000), ("Holz (Eiche)", 12000),
   ("Holz (BSH)", 14000), ("Aluminium", 70000)]

/-- Embeds `get_material_e_modul`: table lookup with default 210000 on a miss. -/
def get_material_e_modul (material : String) : ℚ :=
  dictGet materialien material 210000

/-- The IPE section table of `get_ipe_traegheitsmoment`. -/
def ipe_profile : List (String × ℚ) :=
  [("IPE 80", 80.1e-8), ("IPE 100", 171e-8), ("IPE 120", 318e-8),
   ("IPE 140", 541e-8), ("IPE 160", 869e-8), ("IPE 180", 1320e-8),
   ("IPE 200", 1940e-8), ("IPE 220", 2770e-8), ("IPE 240", 3890e-8),
   ("IPE 270", 5790e-8), ("IPE 300", 8360e-8), ("IPE 330", 11770e-8),
   ("IPE 360", 16270e-8), ("IPE 400", 23130e-8), ("IPE 450", 33740e-8),
   ("IPE 500", 48200e-8), ("IPE 550", 67120e-8), ("IPE 600", 92080e-8)]

/-- Embeds `get_ipe_traegheitsmoment`: table lookup, default `1940e-8` on a miss. -/
def get_ipe_traegheitsmoment (profil : String) : ℚ :=
  dictGet ipe_profile profil 1940e-8

/-- The property asserted by claim C3 for `berechne_einfeldtraeger`:
simple-beam moment, shear, deflection, limits and utilization formulas. -/
def einfeld_formulas (L q E I : ℚ) : Prop :=
  ∃ r, berechne_einfeldtraeger L q E I = .ok r ∧
    r.biegemoment_max = q * L ^ 2 / 8 ∧
    r.querkraft_max = q * L / 2 ∧
    r.durchbiegung_max = 5 * q * L ^ 4 / (384 * (E * 1000) * I) * 1000 ∧
    r.grenzdurchbiegung_l300 = L * 1000 / 300 ∧
    r.grenzdurchbiegung_l250 = L * 1000 / 250 ∧
    r.ausnutzung_l300 = r.durchbiegung_max / (L * 1000 / 300) * 100

/-- The property asserted by claim C5 for `berechne_kragtraeger`:
cantilever moment (4 times the simple-beam moment), shear, deflection,
L/200 limit, and utilization computed against L/200 rather than L/300. -/
def krag_formulas (L q E I : ℚ) : Prop :=
  ∃ r rs, berechne_kragtraeger L q E I = .ok r ∧
    berechne_einfeldtraeger L q E I = .ok rs ∧
    r.biegemoment_max = q * L ^ 2 / 2 ∧
    r.biegemoment_max = 4 * rs.biegemoment_max ∧
    r.querkraft_max = q * L ∧
    r.durchbiegung_max = q * L ^ 4 / (8 * (E * 1000) * I) * 1000 ∧
    r.grenzdurchbiegung_l200 = L * 1000 / 200 ∧
    r.ausnutzung_l300 = r.durchbiegung_max / (L * 1000 / 200) * 100 ∧
    r.ausnutzung_l300 ≠ r.durchbiegung_max / (L * 1000 / 300) * 100

/-- Projection used to state concrete facts about a slab computation:
the deflection field of a returned result (0 if the computation failed). -/
def plattenDurchbiegung (e : Except CalcError PlatteBerechnung) : ℚ :=
  match e with
  | .ok r => r.max_durchbiegung
  | .error _ => 0

/-- The property asserted by claim C4 for `berechne_durchlauftrager`:
the governing span is the maximum entry, ties broken by first occurrence
(recorded in `max_feld_index`); moment from the governing span; shear the
maximum of the per-span shears; deflection the governing span's
simple-span deflection times 0.70 (2 spans) or 0.65 (3 spans); limits from
the governing span. -/
def durchlauf_spec (l : List ℚ) (q E I : ℚ) : Prop :=
  ∃ r rs, berechne_durchlauftrager l q E I = .ok r ∧
    berechne_einfeldtraeger (listMax l) q E I = .ok rs ∧
    listMax l ∈ l ∧
    (∀ x ∈ l, x ≤ listMax l) ∧
    r.max_feld_index < l.length ∧
    l.getD r.max_feld_index 0 = listMax l ∧
    (∀ j, j < r.max_feld_index → l.getD j 0 ≠ listMax l) ∧
    r.biegemoment_max = q * listMax l ^ 2 / 8 ∧
    (∀ x ∈ l, q * x / 2 ≤ r.querkraft_max) ∧
    (∃ x ∈ l, r.querkraft_max = q * x / 2) ∧
    r.durchbiegung_max = rs.durchbiegung_max * (if l.length = 2 then 0.7 else 0.65) ∧
    r.grenzdurchbiegung_l300 = listMax l * 1000 / 300 ∧
    r.grenzdurchbiegung_l250 = listMax l * 1000 / 250

/-- The property asserted by the amended claim C6 for
`berechne_platte_einfeld`: governing-direction moments with the 0.5
cross-distribution, deflection with coefficient 0.00406 applied to the
load scaled by 1000 (the code's extra factor) over the flexural stiffness
D, the L/250 limit on Lx, and the reinforcement formula per direction. -/
def platte_einfeld_formulas (Lx Ly q E h : ℚ) : Prop :=
  ∃ r, berechne_platte_einfeld Lx Ly q E h = .ok r ∧
    (1 ≤ Ly / Lx →
      r.max_moment_x = q * Lx ^ 2 / 8 ∧ r.max_moment_y = r.max_moment_x * 0.5) ∧
    (Ly / Lx < 1 →
      r.max_moment_y = q * Ly ^ 2 / 8 ∧ r.max_moment_x = r.max_moment_y * 0.5) ∧
    r.max_durchbiegung =
      0.00406 * (q * 1000 * Lx ^ 4) / (E * 1000 * h ^ 3 / (12 * (1 - 0.2 ^ 2))) * 1000 ∧
    r.grenzdurchbiegung = Lx * 1000 / 250 ∧
    r.bewehrung_x = r.max_moment_x * 1e6 / ((0.9 * h * 1000) * (500 / 1.15)) / 100 ∧
    r.bewehrung_y = r.max_moment_y * 1e6 / ((0.9 * h * 1000) * (500 / 1.15)) / 100

/-- The continuity reduction factor asserted by claim C7 for span counts
2, 3, 4. -/
def slab_reduction (n : ℕ) : ℚ :=
  if n = 2 then 0.7 else if n = 3 then 0.65 else 0.6

/-- The property asserted by claim C7: the continuous slab equals the
single-span slab with moments, deflection and reinforcement scaled by the
span-count reduction factor, the same limit, and utilization recomputed
from the reduced deflection. -/
def platte_durchlauf_spec (Lx Ly q E h : ℚ) (n : ℕ) : Prop :=
  ∃ re rd, berechne_platte_einfeld Lx Ly q E h = .ok re ∧
    berechne_platte_durchlauf Lx Ly q E h n = .ok rd ∧
    rd.max_moment_x = re.max_moment_x * slab_reduction n ∧
    rd.max_moment_y = re.max_moment_y * slab_reduction n ∧
    rd.max_durchbiegung = re.max_durchbiegung * slab_reduction n ∧
    rd.bewehrung_x = re.bewehrung_x * slab_reduction n ∧
    rd.bewehrung_y = re.bewehrung_y * slab_reduction n ∧
    rd.grenzdurchbiegung = re.grenzdurchbiegung ∧
    rd.ausnutzung = rd.max_durchbiegung / (Lx * 1000 / 250) * 100

/-- The property asserted by claim C8 for the single-story frame:
column moment qB²/12, beam moment qB²/24, vertical reaction qB/2,
horizontal reaction qB·tan(30°)/4, simple-span deflection on B, limit
B·1000/300, utilization from that limit. -/
def rahmen_eingeschossig_formulas (B H q E I : ℝ) : Prop :=
  ∃ r, berechne_rahmen_eingeschossig B H q E I = .ok r ∧
    r.schwingungsmoment = q * B ^ 2 / 12 ∧
    r.riegelmoment = q * B ^ 2 / 24 ∧
    r.stuetzkraft_vert = q * B / 2 ∧
    r.stuetzkraft_horiz = q * B * Real.tan (30 * Real.pi / 180) / 4 ∧
    r.durchbiegung_riegel = 5 * q * B ^ 4 / (384 * (E * 1000) * I) * 1000 ∧
    r.grenzdurchbiegung = B * 1000 / 300 ∧
    r.ausnutzung = r.durchbiegung_riegel / (B * 1000 / 300) * 100

/-- The property asserted by claim C8 for the two-story frame:
column moment qB²/10, beam moment qB²/20, vertical reaction qB,
horizontal reaction qB/20, deflection and limit as in the single-story
case. -/
def rahmen_zweischossig_formulas (B Heg Hog q E I : ℝ) : Prop :=
  ∃ r, berechne_rahmen_zweischossig B Heg Hog q E I = .ok r ∧
    r.schwingungsmoment = q * B ^ 2 / 10 ∧
    r.riegelmoment = q * B ^ 2 / 20 ∧
    r.stuetzkraft_vert = q * B ∧
    r.stuetzkraft_horiz = q * B / 20 ∧
    r.durchbiegung_riegel = 5 * q * B ^ 4 / (384 * (E * 1000) * I) * 1000 ∧
    r.grenzdurchbiegung = B * 1000 / 300 ∧
    r.ausnutzung = r.durchbiegung_riegel / (B * 1000 / 300) * 100

/-! ## Helper lemmas about the Python `max`, `list.index` and `dict.get` models -/

theorem le_foldl_max (x : ℚ) (l : List ℚ) : x ≤ l.foldl max x := by
  induction l generalizing x with
  | nil => exact le_refl x
  | cons y ys ih => exact le_trans (le_max_left x y) (ih (max x y))

theorem mem_le_foldl_max {a : ℚ} {l : List ℚ} (x : ℚ) (h : a ∈ l) :
    a ≤ l.foldl max x := by
  induction l generalizing x with
  | nil => cases h
  | cons y ys ih =>
    rcases List.mem_cons.mp h with rfl | hmem
    · exact le_trans (le_max_right x a) (le_foldl_max (max x a) ys)
    · exact ih (max x y) hmem

theorem foldl_max_choice (x : ℚ) (l : List ℚ) :
    l.foldl max x = x ∨ l.foldl max x ∈ l := by
  induction l generalizing x with
  | nil => exact Or.inl rfl
  | cons y ys ih =>
    rcases ih (max x y) with heq | hmem
    · rcases max_choice x y with hx | hy
      · exact Or.inl (by rw [List.foldl_cons, heq, hx])
      · exact Or.inr (by rw [List.foldl_cons, heq, hy]; exact List.mem_cons_self y ys)
    · exact Or.inr (List.mem_cons_of_mem y hmem)

theorem listMax_mem {l : List ℚ} (h : l ≠ []) : listMax l ∈ l := by
  match l with
  | [] => exact absurd rfl h
  | x :: xs =>
    rcases foldl_max_choice x xs with heq | hmem
    · rw [listMax, heq]; exact List.mem_cons_self x xs
    · exact List.mem_cons_of_mem x hmem

theorem le_listMax {a : ℚ} {l : List ℚ} (h : a ∈ l) : a ≤ listMax l := by
  match l with
  | [] => cases h
  | x :: xs =>
    rcases List.mem_cons.mp h with rfl | hmem
    · exact le_foldl_max a xs
    · exact mem_le_foldl_max x hmem

theorem listIndex_lt_length {a : ℚ} {l : List ℚ} (h : a ∈ l) :
    listIndex l a < l.length := by
  induction l with
  | nil => cases h
  | cons x xs ih =>
    by_cases hx : x = a
    · simp [listIndex, hx]
    · have hmem : a ∈ xs := by
        rcases List.mem_cons.mp h with rfl | hmem
        · exact absurd rfl hx
        · exact hmem
      simp only [listIndex, if_neg hx, List.length_cons]
      exact Nat.succ_lt_succ (ih hmem)

theorem getD_listIndex {a : ℚ} {l : List ℚ} (h : a ∈ l) :
    l.getD (listIndex l a) 0 = a := by
  induction l with
  | nil => cases h
  | cons x xs ih =>
    by_cases hx : x = a
    · simp [listIndex, hx]
    · have hmem : a ∈ xs := by
        rcases List.mem_cons.mp h with rfl | hmem
        · exact absurd rfl hx
        · exact hmem
      simp only [listIndex, if_neg hx]
      simpa using ih hmem

theorem getD_ne_of_lt_listIndex {a : ℚ} {l : List ℚ} {j : ℕ}
    (hj : j < listIndex l a) : l.getD j 0 ≠ a := by
  induction l generalizing j with
  | nil => simp [listIndex] at hj
  | cons x xs ih =>
    by_cases hx : x = a
    · simp [listIndex, hx] at hj
    · rw [listIndex, if_neg hx] at hj
      match j with
      | 0 => simpa using hx
      | j + 1 =>
        have : j < listIndex xs a := Nat.lt_of_succ_lt_succ hj
        simpa using ih this

theorem dictGet_pos {l : List (String × ℚ)} {d : ℚ} (hd : 0 < d)
    (hl : ∀ p ∈ l, 0 < p.2) (s : String) : 0 < dictGet l s d := by
  induction l with
  | nil => exact hd
  | cons p rest ih =>
    obtain ⟨k, v⟩ := p
    by_cases hk : s = k
    · simpa [dictGet, hk] using hl (k, v) (List.mem_cons_self _ _)
    · rw [dictGet, if_neg hk]
      exact ih fun q hq => hl q (List.mem_cons_of_mem _ hq)

theorem dictGet_of_not_mem {l : List (String × ℚ)} {d : ℚ} {s : String}
    (h : s ∉ l.map Prod.fst) : dictGet l s d = d := by
  induction l with
  | nil => rfl
  | cons p rest ih =>
    obtain ⟨k, v⟩ := p
    have hk : s ≠ k := by
      intro heq
      exact h (by simp [heq])
    rw [dictGet, if_neg hk]
    exact ih fun hmem => h (by simp at hmem ⊢; exact Or.inr hmem)

/-! ## Claim C1 -/

/-- C1: the claim states that every analyzer operation rejects any
non-positive length, load, modulus, inertia or thickness with an
`InvalidParameter` condition and returns no result.  The code contains no
such validation: here `berechne_einfeldtraeger` is called with length 0
(a non-positive length) and returns a result. -/
theorem C1_counterexample :
    returnsResult (berechne_einfeldtraeger 0 5 210000 1940e-8) = true ∧
    returnsResult (berechne_kragtraeger 0 5 210000 1940e-8) = true ∧
    returnsResult (berechne_platte_einfeld 0 1 5 30000 0.2) = true :=
  ⟨rfl, rfl, rfl⟩

/-- C1 (amended): none of the analyzer operations validates its numeric
inputs, and no `InvalidParameter` condition exists in the code.  On the
domain where the code runs to completion — non-zero modulus and inertia
for beams and frames, non-zero modulus and thickness for slabs (at a zero
divisor Python instead raises an uncaught `ZeroDivisionError`) — every
operation returns a result even for non-positive lengths and loads; the
only explicit check in the analyzers is the span-count check of
`berechne_durchlauftrager`. -/
theorem C1_no_input_validation :
    (∀ L q E I : ℚ, E ≠ 0 → I ≠ 0 →
      returnsResult (berechne_einfeldtraeger L q E I) = true) ∧
    (∀ L q E I : ℚ, E ≠ 0 → I ≠ 0 →
      returnsResult (berechne_kragtraeger L q E I) = true) ∧
    (∀ (l : List ℚ) (q E I : ℚ), l.length = 2 ∨ l.length = 3 → E ≠ 0 → I ≠ 0 →
      returnsResult (berechne_durchlauftrager l q E I) = true) ∧
    (∀ B H q E I : ℝ, E ≠ 0 → I ≠ 0 →
      returnsResult (berechne_rahmen_eingeschossig B H q E I) = true) ∧
    (∀ B H1 H2 q E I : ℝ, E ≠ 0 → I ≠ 0 →
      returnsResult (berechne_rahmen_zweischossig B H1 H2 q E I) = true) ∧
    (∀ Lx Ly q E h : ℚ, E ≠ 0 → h ≠ 0 →
      returnsResult (berechne_platte_einfeld Lx Ly q E h) = true) ∧
    (∀ (Lx Ly q E h : ℚ) (n : ℕ), E ≠ 0 → h ≠ 0 →
      returnsResult (berechne_platte_durchlauf Lx Ly q E h n) = true) := by
  refine ⟨fun _ _ _ _ _ _ => rfl, fun _ _ _ _ _ _ => rfl, ?_,
    fun _ _ _ _ _ _ _ => rfl, fun _ _ _ _ _ _ _ _ => rfl,
    fun _ _ _ _ _ _ _ => rfl, fun _ _ _ _ _ _ _ _ => rfl⟩
  intro l q E I hlen hE hI
  rw [berechne_durchlauftrager]
  simp only [if_pos hlen]
  rfl

/-- C1 witness: the amended statement instantiated at concrete
non-positive lengths (length −1 and a span list containing 0 and −1),
with non-zero modulus and inertia. -/
theorem C1_no_input_validation_witness :
    ([(0 : ℚ), -1].length = 2 ∨ [(0 : ℚ), -1].length = 3) ∧
    (210000 : ℚ) ≠ 0 ∧ (1940e-8 : ℚ) ≠ 0 ∧
    returnsResult (berechne_durchlauftrager [0, -1] 5 210000 1940e-8) = true ∧
    returnsResult (berechne_einfeldtraeger (-1) 5 210000 1940e-8) = true :=
  ⟨Or.inl rfl, by norm_num, by norm_num,
   C1_no_input_validation.2.2.1 [0, -1] 5 210000 1940e-8 (Or.inl rfl)
     (by norm_num) (by norm_num),
   C1_no_input_validation.1 (-1) 5 210000 1940e-8 (by norm_num) (by norm_num)⟩

/-! ## Claim C2 -/

/-- C2: the claim states that `berechne_platte_durchlauf` fails with an
`UnsupportedSpanCount` condition for a span count outside 2..4 and
produces no result.  Here it is called with span count 5 and returns a
result (the reduction factor silently falls back to 0.65). -/
theorem C2_counterexample :
    returnsResult (berechne_platte_durchlauf 1 1 1 1 1 5) = true := rfl

/-- C2 (amended): `berechne_durchlauftrager` fails with the unsupported
span-count condition exactly when the span list does not have 2 or 3
entries (for any numeric inputs — the check precedes all arithmetic), and
returns a result for 2 or 3 entries whenever modulus and inertia are
non-zero (at a zero divisor Python instead raises `ZeroDivisionError`).
`berechne_platte_durchlauf` never fails for any span count: whenever
modulus and thickness are non-zero, a count outside 2..4 is accepted and
silently falls back to the reduction factor 0.65. -/
theorem C2_span_count_handling :
    (∀ (l : List ℚ) (q E I : ℚ), ¬(l.length = 2 ∨ l.length = 3) →
      berechne_durchlauftrager l q E I = .error CalcError.unsupportedSpanCount) ∧
    (∀ (l : List ℚ) (q E I : ℚ), (l.length = 2 ∨ l.length = 3) → E ≠ 0 → I ≠ 0 →
      returnsResult (berechne_durchlauftrager l q E I) = true) ∧
    (∀ (Lx Ly q E h : ℚ) (n : ℕ), E ≠ 0 → h ≠ 0 →
      returnsResult (berechne_platte_durchlauf Lx Ly q E h n) = true) ∧
    (∀ (Lx Ly q E h : ℚ) (n : ℕ), E ≠ 0 → h ≠ 0 → n ≠ 2 → n ≠ 3 → n ≠ 4 →
      ∃ re rd, berechne_platte_einfeld Lx Ly q E h = .ok re ∧
        berechne_platte_durchlauf Lx Ly q E h n = .ok rd ∧
        rd.max_moment_x = re.max_moment_x * 0.65) := by
  refine ⟨?_, ?_, fun _ _ _ _ _ _ _ _ => rfl, ?_⟩
  · intro l q E I hlen
    rw [berechne_durchlauftrager]
    simp only [if_neg hlen]
  · intro l q E I hlen hE hI
    rw [berechne_durchlauftrager]
    simp only [if_pos hlen]
    rfl
  · intro Lx Ly q E h n hE hh h2 h3 h4
    have hred : (if n = 2 then (0.7 : ℚ) else if n = 3 then 0.65
        else if n = 4 then 0.6 else 0.65) = 0.65 := by
      rw [if_neg h2, if_neg h3, if_neg h4]
    refine ⟨_, _, rfl, rfl, ?_⟩
    show _ * (if n = 2 then (0.7 : ℚ) else if n = 3 then 0.65
        else if n = 4 then 0.6 else 0.65) = _ * (0.65 : ℚ)
    rw [hred]

/-- C2 witness: the amended statement instantiated at a 4-entry span list
(rejected by the continuous beam), a 2-entry list (accepted), and span
count 7 for the continuous slab (accepted with factor 0.65). -/
theorem C2_span_count_handling_witness :
    ¬([(4 : ℚ), 5, 6, 7].length = 2 ∨ [(4 : ℚ), 5, 6, 7].length = 3) ∧
    ((33000 : ℚ) ≠ 0 ∧ (0.2 : ℚ) ≠ 0) ∧
    berechne_durchlauftrager [4, 5, 6, 7] 5 210000 1940e-8 =
      .error CalcError.unsupportedSpanCount ∧
    returnsResult (berechne_durchlauftrager [4, 5] 5 210000 1940e-8) = true ∧
    (∃ re rd, berechne_platte_einfeld 5 4 5 33000 0.2 = .ok re ∧
      berechne_platte_durchlauf 5 4 5 33000 0.2 7 = .ok rd ∧
      rd.max_moment_x = re.max_moment_x * 0.65) :=
  ⟨by decide, ⟨by norm_num, by norm_num⟩,
   C2_span_count_handling.1 [4, 5, 6, 7] 5 210000 1940e-8 (by decide),
   C2_span_count_handling.2.1 [4, 5] 5 210000 1940e-8 (Or.inl rfl)
     (by norm_num) (by norm_num),
   C2_span_count_handling.2.2.2 5 4 5 33000 0.2 7 (by norm_num) (by norm_num)
     (by decide) (by decide) (by decide)⟩

/-! ## Claim C3 -/

/-- C3: for strictly positive inputs `berechne_einfeldtraeger` computes the
simple-beam formulas, and on scenario A (L=6, q=5, E=210000, I=1940e-8)
yields moment 22.50 kNm, shear 15.00 kN, deflection within 0.01 of
20.72 mm, L/300 limit 20.00 mm, utilization within 0.05 of 103.6 %. -/
theorem C3_einfeldtraeger_formulas :
    (∀ L q E I : ℚ, 0 < L → 0 < q → 0 < E → 0 < I → einfeld_formulas L q E I) ∧
    (∃ r, berechne_einfeldtraeger 6 5 210000 1940e-8 = .ok r ∧
      r.biegemoment_max = 22.5 ∧
      r.querkraft_max = 15 ∧
      |r.durchbiegung_max - 20.72| < 0.01 ∧
      r.grenzdurchbiegung_l300 = 20 ∧
      |r.ausnutzung_l300 - 103.6| < 0.05) := by
  constructor
  · intro L q E I hL hq hE hI
    have hg : (0 : ℚ) < L * 1000 / 300 := by positivity
    refine ⟨_, rfl, rfl, rfl, rfl, rfl, rfl, ?_⟩
    show (if 0 < L * 1000 / 300 then
        5 * q * L ^ 4 / (384 * (E * 1000) * I) * 1000 / (L * 1000 / 300) * 100
      else 0) = 5 * q * L ^ 4 / (384 * (E * 1000) * I) * 1000 / (L * 1000 / 300) * 100
    exact if_pos hg
  · have hg6 : (0 : ℚ) < 6 * 1000 / 300 := by norm_num
    refine ⟨_, rfl, by norm_num, by norm_num, ?_, by norm_num, ?_⟩
    · show |5 * 5 * 6 ^ 4 / (384 * (210000 * 1000) * 1940e-8) * 1000 - 20.72| < 0.01
      rw [abs_lt]
      constructor <;> norm_num
    · show |(if (0 : ℚ) < 6 * 1000 / 300 then
          5 * 5 * 6 ^ 4 / (384 * (210000 * 1000) * 1940e-8) * 1000 / (6 * 1000 / 300) * 100
        else 0) - 103.6| < 0.05
      rw [if_pos hg6, abs_lt]
      constructor <;> norm_num

/-- C3 witness: the general part instantiated at the strictly positive
scenario-A inputs. -/
theorem C3_einfeldtraeger_formulas_witness :
    (0 : ℚ) < 6 ∧ (0 : ℚ) < 5 ∧ (0 : ℚ) < 210000 ∧ (0 : ℚ) < 1940e-8 ∧
    einfeld_formulas 6 5 210000 1940e-8 :=
  ⟨by norm_num, by norm_num, by norm_num, by norm_num,
   C3_einfeldtraeger_formulas.1 6 5 210000 1940e-8
     (by norm_num) (by norm_num) (by norm_num) (by norm_num)⟩

/-! ## Claim C5 -/

/-- C5: for strictly positive inputs `berechne_kragtraeger` computes the
cantilever formulas; its moment is exactly 4 times the simple-beam moment
for equal L and q, and its utilization is computed against the L/200
limit, not against L/300. -/
theorem C5_kragtraeger_formulas :
    ∀ L q E I : ℚ, 0 < L → 0 < q → 0 < E → 0 < I → krag_formulas L q E I := by
  intro L q E I hL hq hE hI
  have hg : (0 : ℚ) < L * 1000 / 200 := by positivity
  have haus : (if 0 < L * 1000 / 200 then
      q * L ^ 4 / (8 * (E * 1000) * I) * 1000 / (L * 1000 / 200) * 100 else 0)
      = q * L ^ 4 / (8 * (E * 1000) * I) * 1000 / (L * 1000 / 200) * 100 :=
    if_pos hg
  have hne : q * L ^ 4 / (8 * (E * 1000) * I) * 1000 / (L * 1000 / 200) * 100
      ≠ q * L ^ 4 / (8 * (E * 1000) * I) * 1000 / (L * 1000 / 300) * 100 := by
    have hd : (0 : ℚ) < q * L ^ 4 / (8 * (E * 1000) * I) * 1000 := by positivity
    have h200 : (0 : ℚ) < L * 1000 / 200 := by positivity
    have h300 : (0 : ℚ) < L * 1000 / 300 := by positivity
    apply ne_of_lt
    have hdiv : q * L ^ 4 / (8 * (E * 1000) * I) * 1000 / (L * 1000 / 200)
        < q * L ^ 4 / (8 * (E * 1000) * I) * 1000 / (L * 1000 / 300) := by
      rw [div_lt_div_iff₀ h200 h300]
      nlinarith [mul_pos hd hL]
    nlinarith [hdiv]
  refine ⟨_, _, rfl, rfl, rfl, by show q * L ^ 2 / 2 = 4 * (q * L ^ 2 / 8); ring,
    rfl, rfl, rfl, ?_, ?_⟩
  · exact haus
  · show (if 0 < L * 1000 / 200 then
        q * L ^ 4 / (8 * (E * 1000) * I) * 1000 / (L * 1000 / 200) * 100 else 0)
      ≠ q * L ^ 4 / (8 * (E * 1000) * I) * 1000 / (L * 1000 / 300) * 100
    rw [haus]
    exact hne

/-- C5 witness: the cantilever property instantiated at scenario-B-like
strictly positive inputs (L=3, q=5, E=210000, I=1940e-8). -/
theorem C5_kragtraeger_formulas_witness :
    (0 : ℚ) < 3 ∧ (0 : ℚ) < 5 ∧ (0 : ℚ) < 210000 ∧ (0 : ℚ) < 1940e-8 ∧
    krag_formulas 3 5 210000 1940e-8 :=
  ⟨by norm_num, by norm_num, by norm_num, by norm_num,
   C5_kragtraeger_formulas 3 5 210000 1940e-8
     (by norm_num) (by norm_num) (by norm_num) (by norm_num)⟩

/-! ## Claim C10 -/

/-- C10: in every analyzer operation the utilization division is guarded
by strict positivity of the deflection limit.  Whenever the governing
length is non-positive — beam length, governing (maximum) span of the
continuous beam, frame width, slab x-span, so that the respective limit
is non-positive — the returned record keeps the initial utilization value
0.  The hypotheses `E ≠ 0`, `I ≠ 0`, `h ≠ 0` (and their real
counterparts for the frames) delimit the inputs on which the Python code
runs to completion (its other divisors are then non-zero), so that the
exact-arithmetic model matches it. -/
theorem C10_utilization_guard :
    ∀ (L q E I Lx Ly p h : ℚ) (l : List ℚ) (n : ℕ) (B H1 H2 qr Er Ir : ℝ),
      L ≤ 0 → Lx ≤ 0 → listMax l ≤ 0 → (l.length = 2 ∨ l.length = 3) → B ≤ 0 →
      E ≠ 0 → I ≠ 0 → h ≠ 0 → Er ≠ 0 → Ir ≠ 0 →
      (∃ r, berechne_einfeldtraeger L q E I = .ok r ∧ r.ausnutzung_l300 = 0) ∧
      (∃ r, berechne_kragtraeger L q E I = .ok r ∧ r.ausnutzung_l300 = 0) ∧
      (∃ r, berechne_durchlauftrager l q E I = .ok r ∧ r.ausnutzung_l300 = 0) ∧
      (∃ r, berechne_rahmen_eingeschossig B H1 qr Er Ir = .ok r ∧ r.ausnutzung = 0) ∧
      (∃ r, berechne_rahmen_zweischossig B H1 H2 qr Er Ir = .ok r ∧ r.ausnutzung = 0) ∧
      (∃ r, berechne_platte_einfeld Lx Ly p E h = .ok r ∧ r.ausnutzung = 0) ∧
      (∃ r, berechne_platte_durchlauf Lx Ly p E h n = .ok r ∧ r.ausnutzung = 0) := by
  intro L q E I Lx Ly p h l n B H1 H2 qr Er Ir hL hLx hlmax hlen hB hE hI hh hEr hIr
  have h300 : ¬ (0 : ℚ) < L * 1000 / 300 := not_lt.mpr (by linarith)
  have h200 : ¬ (0 : ℚ) < L * 1000 / 200 := not_lt.mpr (by linarith)
  have h250 : ¬ (0 : ℚ) < Lx * 1000 / 250 := not_lt.mpr (by linarith)
  have h300l : ¬ (0 : ℚ) < listMax l * 1000 / 300 := not_lt.mpr (by linarith)
  have h300B : ¬ (0 : ℝ) < B * 1000 / 300 := not_lt.mpr (by linarith)
  refine ⟨⟨_, rfl, if_neg h300⟩, ⟨_, rfl, if_neg h200⟩, ?_,
    ⟨_, rfl, if_neg h300B⟩, ⟨_, rfl, if_neg h300B⟩,
    ⟨_, rfl, if_neg h250⟩, ⟨_, rfl, if_neg h250⟩⟩
  rw [berechne_durchlauftrager]
  simp only [if_pos hlen]
  exact ⟨_, rfl, if_neg h300l⟩

/-- C10 witness: the guard property instantiated at governing length 0 in
every operation (beam length 0, span list with maximum 0, frame width 0,
slab x-span 0), with non-zero modulus, inertia and thickness. -/
theorem C10_utilization_guard_witness :
    ((0 : ℚ) ≤ 0 ∧ listMax [0, -1] ≤ 0 ∧ (0 : ℝ) ≤ 0 ∧
      (1 : ℚ) ≠ 0 ∧ (1 : ℝ) ≠ 0) ∧
    (∃ r, berechne_einfeldtraeger 0 1 1 1 = .ok r ∧ r.ausnutzung_l300 = 0) ∧
    (∃ r, berechne_kragtraeger 0 1 1 1 = .ok r ∧ r.ausnutzung_l300 = 0) ∧
    (∃ r, berechne_durchlauftrager [0, -1] 1 1 1 = .ok r ∧ r.ausnutzung_l300 = 0) ∧
    (∃ r, berechne_rahmen_eingeschossig 0 1 1 1 1 = .ok r ∧ r.ausnutzung = 0) ∧
    (∃ r, berechne_rahmen_zweischossig 0 1 1 1 1 1 = .ok r ∧ r.ausnutzung = 0) ∧
    (∃ r, berechne_platte_einfeld 0 1 1 1 1 = .ok r ∧ r.ausnutzung = 0) ∧
    (∃ r, berechne_platte_durchlauf 0 1 1 1 1 2 = .ok r ∧ r.ausnutzung = 0) :=
  ⟨⟨le_rfl, by decide, le_rfl, one_ne_zero, one_ne_zero⟩,
   C10_utilization_guard 0 1 1 1 0 1 1 1 [0, -1] 2 0 1 1 1 1 1
     le_rfl le_rfl (by decide) (Or.inl rfl) le_rfl
     one_ne_zero one_ne_zero one_ne_zero one_ne_zero one_ne_zero⟩

/-! ## Claim C4 -/

/-- C4: for a span list of 2 or 3 strictly positive entries and strictly
positive load, modulus and inertia, `berechne_durchlauftrager` picks the
maximum span (first occurrence on ties, index recorded), computes the
moment from it, the shear as the maximum per-span shear, the deflection as
the governing simple-span deflection times 0.70 (2 spans) or 0.65
(3 spans), and both limits from the governing span. -/
theorem C4_durchlauftrager_formulas :
    ∀ (l : List ℚ) (q E I : ℚ), (l.length = 2 ∨ l.length = 3) →
      (∀ x ∈ l, 0 < x) → 0 < q → 0 < E → 0 < I → durchlauf_spec l q E I := by
  intro l q E I hlen hpos hq hE hI
  have hne : l ≠ [] := by
    rcases hlen with h | h <;> (intro hnil; rw [hnil] at h; simp at h)
  have hmem : listMax l ∈ l := listMax_mem hne
  have hle : ∀ x ∈ l, x ≤ listMax l := fun x hx => le_listMax hx
  have hmapne : l.map (fun f => q * f / 2) ≠ [] := by
    intro hcon
    apply hne
    simpa using hcon
  have hshear : ∃ x ∈ l, listMax (l.map fun f => q * f / 2) = q * x / 2 := by
    obtain ⟨x, hx, hfx⟩ := List.mem_map.mp (listMax_mem hmapne)
    exact ⟨x, hx, hfx.symm⟩
  rw [durchlauf_spec, berechne_durchlauftrager]
  simp only [if_pos hlen]
  refine ⟨_, _, rfl, rfl, hmem, hle, listIndex_lt_length hmem, getD_listIndex hmem,
    fun j hj => getD_ne_of_lt_listIndex hj, rfl,
    fun x hx => le_listMax (List.mem_map_of_mem _ hx), hshear, rfl, rfl, rfl⟩

/-- C4 witness: the continuous-beam property instantiated at scenario C
(two spans of 4 m and 5 m with q=5, E=210000, I=1940e-8). -/
theorem C4_durchlauftrager_formulas_witness :
    ([(4 : ℚ), 5].length = 2 ∨ [(4 : ℚ), 5].length = 3) ∧
    (∀ x ∈ [(4 : ℚ), 5], 0 < x) ∧
    durchlauf_spec [4, 5] 5 210000 1940e-8 :=
  ⟨Or.inl rfl, by decide,
   C4_durchlauftrager_formulas [4, 5] 5 210000 1940e-8 (Or.inl rfl)
     (by decide) (by norm_num) (by norm_num) (by norm_num)⟩

/-! ## Claim C6 -/

/-- C6: the claim states that the single-span slab deflection equals
0.00406·q·Lx⁴/D converted from meters to millimeters (one factor 1000).
The code additionally multiplies the load by 1000, so at
Lx=Ly=1, q=1, E=1, h=1 the computed deflection (46.7712 mm) is 1000 times
the claimed value (0.0467712 mm). -/
theorem C6_counterexample :
    plattenDurchbiegung (berechne_platte_einfeld 1 1 1 1 1) ≠
      0.00406 * (1 * 1 ^ 4) / (1 * 1000 * 1 ^ 3 / (12 * (1 - 0.2 ^ 2))) * 1000 := by
  norm_num [plattenDurchbiegung, berechne_platte_einfeld]

/-- C6 (amended): for strictly positive inputs `berechne_platte_einfeld`
computes moments, limit and reinforcement exactly as claimed, but the
deflection is `0.00406 · (q·1000) · Lx⁴ / D · 1000` — the load is
additionally scaled by 1000 before the plate coefficient is applied, so
the result is 1000 times the claimed `0.00406·q·Lx⁴/D` in millimeters. -/
theorem C6_platte_einfeld_amended :
    ∀ Lx Ly q E h : ℚ, 0 < Lx → 0 < Ly → 0 < q → 0 < E → 0 < h →
      platte_einfeld_formulas Lx Ly q E h := by
  intro Lx Ly q E h hLx hLy hq hE hh
  rw [platte_einfeld_formulas, berechne_platte_einfeld]
  simp only [if_pos hLx]
  by_cases hlam : 1 ≤ Ly / Lx
  · simp only [if_pos hlam]
    exact ⟨_, rfl, fun _ => ⟨rfl, rfl⟩,
      fun hcon => absurd hlam (not_le.mpr hcon), rfl, rfl, rfl, rfl⟩
  · simp only [if_neg hlam]
    exact ⟨_, rfl, fun hcon => absurd hcon hlam,
      fun _ => ⟨rfl, rfl⟩, rfl, rfl, rfl, rfl⟩

/-- C6 witness: the amended property instantiated at strictly positive
inputs Lx=Ly=q=E=h=1. -/
theorem C6_platte_einfeld_amended_witness :
    (0 : ℚ) < 1 ∧ platte_einfeld_formulas 1 1 1 1 1 :=
  ⟨one_pos, C6_platte_einfeld_amended 1 1 1 1 1 one_pos one_pos one_pos one_pos one_pos⟩

/-! ## Claim C7 -/

/-- C7: for span counts 2, 3, 4 the continuous slab equals the single-span
slab with moments, deflection and both reinforcement areas scaled by 0.70,
0.65, 0.60 respectively, the same L/250 limit on Lx, and the utilization
computed from the reduced deflection. -/
theorem C7_platte_durchlauf_reduction :
    ∀ (Lx Ly q E h : ℚ) (n : ℕ), 0 < Lx → 0 < Ly → 0 < q → 0 < E → 0 < h →
      n = 2 ∨ n = 3 ∨ n = 4 → platte_durchlauf_spec Lx Ly q E h n := by
  intro Lx Ly q E h n hLx hLy hq hE hh hn
  have hg : (0 : ℚ) < Lx * 1000 / 250 := by positivity
  have hred : (if n = 2 then (0.7 : ℚ) else if n = 3 then 0.65
      else if n = 4 then 0.6 else 0.65) = slab_reduction n := by
    rcases hn with rfl | rfl | rfl <;> simp [slab_reduction]
  rw [platte_durchlauf_spec, berechne_platte_durchlauf]
  simp only [berechne_platte_einfeld, hred]
  refine ⟨_, _, rfl, rfl, rfl, rfl, rfl, ?_, ?_, rfl, ?_⟩
  · show _ * slab_reduction n * 1e6 / (0.9 * h * 1000 * (500 / 1.15)) / 100 =
      _ * 1e6 / (0.9 * h * 1000 * (500 / 1.15)) / 100 * slab_reduction n
    ring
  · show _ * slab_reduction n * 1e6 / (0.9 * h * 1000 * (500 / 1.15)) / 100 =
      _ * 1e6 / (0.9 * h * 1000 * (500 / 1.15)) / 100 * slab_reduction n
    ring
  · exact if_pos hg

/-- C7 witness: the reduction property instantiated at Lx=Ly=q=E=h=1 with
two spans. -/
theorem C7_platte_durchlauf_reduction_witness :
    ((2 : ℕ) = 2 ∨ (2 : ℕ) = 3 ∨ (2 : ℕ) = 4) ∧ platte_durchlauf_spec 1 1 1 1 1 2 :=
  ⟨Or.inl rfl, C7_platte_durchlauf_reduction 1 1 1 1 1 2 one_pos one_pos one_pos
    one_pos one_pos (Or.inl rfl)⟩

/-! ## Claim C8 -/

/-- C8: for strictly positive inputs the single-story frame returns column
moment qB²/12, beam moment qB²/24, vertical reaction qB/2, horizontal
reaction qB·tan(30°)/4, simple-span deflection on B with limit B·1000/300;
the two-story frame returns qB²/10, qB²/20, vertical reaction qB,
horizontal reaction qB/20, with deflection and limit computed
identically. -/
theorem C8_rahmen_formulas :
    (∀ B H q E I : ℝ, 0 < B → 0 < H → 0 < q → 0 < E → 0 < I →
      rahmen_eingeschossig_formulas B H q E I) ∧
    (∀ B Heg Hog q E I : ℝ, 0 < B → 0 < Heg → 0 < Hog → 0 < q → 0 < E → 0 < I →
      rahmen_zweischossig_formulas B Heg Hog q E I) := by
  constructor
  · intro B H q E I hB hH hq hE hI
    have hg : (0 : ℝ) < B * 1000 / 300 := by positivity
    rw [rahmen_eingeschossig_formulas, berechne_rahmen_eingeschossig]
    refine ⟨_, rfl, rfl, rfl, rfl, rfl, rfl, rfl, ?_⟩
    exact if_pos hg
  · intro B Heg Hog q E I hB hHeg hHog hq hE hI
    have hg : (0 : ℝ) < B * 1000 / 300 := by positivity
    rw [rahmen_zweischossig_formulas, berechne_rahmen_zweischossig]
    refine ⟨_, rfl, rfl, rfl, ?_, rfl, rfl, rfl, ?_⟩
    · show q * B / 2 * 2 = q * B
      ring
    · exact if_pos hg

/-- C8 witness: both frame properties instantiated at all-ones inputs. -/
theorem C8_rahmen_formulas_witness :
    (0 : ℝ) < 1 ∧ rahmen_eingeschossig_formulas 1 1 1 1 1 ∧
    rahmen_zweischossig_formulas 1 1 1 1 1 1 :=
  ⟨one_pos,
   C8_rahmen_formulas.1 1 1 1 1 1 one_pos one_pos one_pos one_pos one_pos,
   C8_rahmen_formulas.2 1 1 1 1 1 1 one_pos one_pos one_pos one_pos one_pos one_pos⟩

/-! ## Claim C9 -/

/-- C9: the two lookup functions are total and always return a strictly
positive value; any string outside the respective table yields the
documented defaults 210000 (modulus) and 1940e-8 (inertia). -/
theorem C9_lookup_total_positive :
    (∀ s, 0 < get_material_e_modul s) ∧
    (∀ s, 0 < get_ipe_traegheitsmoment s) ∧
    (∀ s, s ∉ materialien.map Prod.fst → get_material_e_modul s = 210000) ∧
    (∀ s, s ∉ ipe_profile.map Prod.fst → get_ipe_traegheitsmoment s = 1940e-8) := by
  refine ⟨?_, ?_, ?_, ?_⟩
  · intro s
    show 0 < dictGet materialien s 210000
    refine dictGet_pos (by norm_num) ?_ s
    intro p hp
    simp only [materialien, List.mem_cons, List.not_mem_nil, or_false] at hp
    rcases hp with rfl | rfl | rfl | rfl | rfl | rfl | rfl | rfl | rfl | rfl <;> norm_num
  · intro s
    show 0 < dictGet ipe_profile s 1940e-8
    refine dictGet_pos (by norm_num) ?_ s
    intro p hp
    simp only [ipe_profile, List.mem_cons, List.not_mem_nil, or_false] at hp
    rcases hp with rfl | rfl | rfl | rfl | rfl | rfl | rfl | rfl | rfl | rfl | rfl | rfl |
      rfl | rfl | rfl | rfl | rfl | rfl <;> norm_num
  · intro s hs
    exact dictGet_of_not_mem hs
  · intro s hs
    exact dictGet_of_not_mem hs

/-- C9 witness: a hit is positive, and two misses resolve to the
documented defaults. -/
theorem C9_lookup_total_positive_witness :
    "Unobtainium" ∉ materialien.map Prod.fst ∧
    0 < get_material_e_modul "Stahl (S235)" ∧
    get_material_e_modul "Unobtainium" = 210000 ∧
    get_ipe_traegheitsmoment "HEB 200" = 1940e-8 :=
  ⟨by decide, C9_lookup_total_positive.1 "Stahl (S235)",
   C9_lookup_total_positive.2.2.1 "Unobtainium" (by decide),
   C9_lookup_total_positive.2.2.2 "HEB 200" (by decide)⟩

end Statik
